import Mathlib

/-!
Verification of the namesprouts application (`src/final/app.py`): a shallow
embedding of its data model (the `users` and `projects` SQLite tables), its
session handling and its Flask route handlers, with theorems checking the
specification's claims against this embedding.
-/

namespace NameSprouts

/-- A row of the `users` table (see `init_db`): id, unique username, unique
email, password hash. -/
structure UserRec where
  id : Nat
  username : String
  email : String
  hash : String
deriving DecidableEq, Repr

/-- A row of the `projects` table (see `init_db`): id, owning user, display
name, month label, derived image path, creation timestamp. The code stores
`datetime.utcnow().isoformat()` as TEXT; since ISO-8601 strings of `utcnow`
compare lexicographically exactly as the instants they denote compare, the
timestamp is modelled as a natural number. -/
structure Project where
  id : Nat
  user_id : Nat
  name_text : String
  month : String
  flower_image : String
  created_at : Nat
deriving DecidableEq, Repr

/-- The Flask session dict as far as this application writes it: keys set by
the app, mapped to integers (the only key the app stores is `"user_id"`). -/
abbrev Session := List (String × Nat)

/-- An HTML form (`request.form`): the first binding for a key wins, as in
`request.form.get`. -/
abbrev Form := List (String × String)

/-- The database: the two tables plus the AUTOINCREMENT counters. -/
structure DB where
  users : List UserRec
  projects : List Project
  nextUserId : Nat
  nextProjectId : Nat
deriving DecidableEq, Repr

/-- The state a request handler can read and write: database and session. -/
structure State where
  db : DB
  sess : Session
deriving DecidableEq, Repr

/-- A handler's response: a redirect (endpoint, flashed message, category), a
rendered template (possibly with data), or an uncaught exception (HTTP 500). -/
inductive Resp where
  | redirect (endpoint : String) (msg : String) (cat : String)
  | render (template : String)
  | renderProject (template : String) (p : Project)
  | renderProjects (template : String) (ps : List Project)
  | serverError
deriving DecidableEq, Repr

/-- `request.form.get(k, d)`. -/
def formGet (form : Form) (k : String) (d : String) : String :=
  (form.lookup k).getD d

/-- `request.form.get(k)` with no default: `None` when the field is absent. -/
def formGet? (form : Form) (k : String) : Option String :=
  form.lookup k

/-- Python truthiness test `not x` on an optional string: holds for `None`
and for the empty string. -/
def falsy : Option String → Bool
  | none => true
  | some s => s == ""

/-- Python's `str.strip()`: drop leading and trailing whitespace. -/
def pyStrip (s : String) : String :=
  ⟨((s.data.dropWhile Char.isWhitespace).reverse.dropWhile Char.isWhitespace).reverse⟩

/-- `flower_image_path(month)` (app.py line 96): builds `flowers/<month>.png`,
checks existence under the static folder — modelled by the predicate `fs` on
paths relative to the static folder — and falls back to the default asset. -/
def flower_image_path (fs : String → Bool) (month : String) : String :=
  let path := "flowers/" ++ month ++ ".png"
  if fs path then "static/" ++ path else "static/flowers/default.png"

/-- The `login_required` decorator (app.py line 86): redirect to the login
page when the session carries no `user_id`; otherwise run the wrapped view. -/
def login_required (view : State → Resp × State) (st : State) : Resp × State :=
  if (st.sess.lookup "user_id").isNone then
    (.redirect "login" "Please log in to continue." "error", st)
  else view st

/-- POST `/register` (app.py line 111). `hashFn` models
`generate_password_hash`. The `sqlite3.IntegrityError` branch fires exactly
when the INSERT violates a UNIQUE constraint of `init_db`, i.e. when the
submitted username or email already occurs in the `users` table. -/
def register (hashFn : String → String) (form : Form) (st : State) :
    Resp × State :=
  let username := pyStrip (formGet form "username" "")
  let email := pyStrip (formGet form "email" "")
  let password := formGet? form "password"
  if username == "" || email == "" || falsy password then
    (.redirect "register" "All fields are required." "error", st)
  else
    match password with
    | none => (.serverError, st)
    | some pw =>
      if st.db.users.any (fun u => u.username == username || u.email == email) then
        (.redirect "register" "Username or email already exists." "error", st)
      else
        (.redirect "login" "Account created successfully. Please log in." "success",
          { st with db := { st.db with
              users := st.db.users ++ [⟨st.db.nextUserId, username, email, hashFn pw⟩],
              nextUserId := st.db.nextUserId + 1 } })

/-- POST `/login` (app.py line 139). `checkPw` models `check_password_hash`
on a present password. When the form has no password field the code passes
`None` to `check_password_hash`, which raises (`None` has no `encode`), and
the request ends in a 500. On success the session is cleared and then bound
to the matched user's id, and the handler redirects to the design page. -/
def login (checkPw : String → String → Bool) (form : Form) (st : State) :
    Resp × State :=
  let username := pyStrip (formGet form "username" "")
  let password := formGet? form "password"
  match st.db.users.find? (fun u => u.username == username) with
  | none => (.redirect "login" "Invalid username or password." "error", st)
  | some user =>
    match password with
    | none => (.serverError, st)
    | some pw =>
      if checkPw user.hash pw then
        (.redirect "design" "Welcome back 🌸" "success",
          { st with sess := [("user_id", user.id)] })
      else
        (.redirect "login" "Invalid username or password." "error", st)

/-- GET `/logout` (app.py line 164): clears the session. -/
def logout (st : State) : Resp × State :=
  (.redirect "login" "You have been logged out." "success", { st with sess := [] })

/-- GET `/design` (app.py line 172), wrapped by `login_required`. -/
def design_get : State → Resp × State :=
  login_required fun st => (.render "design.html", st)

/-- POST `/design` (app.py line 172), wrapped by `login_required`: validates
name and month, then inserts a project with the derived image path and the
current timestamp `now`. -/
def design_post (fs : String → Bool) (now : Nat) (form : Form) :
    State → Resp × State :=
  login_required fun st =>
    match st.sess.lookup "user_id" with
    | none => (.serverError, st)
    | some uid =>
      let name := pyStrip (formGet form "name" "")
      let month := formGet? form "month"
      if name == "" || falsy month then
        (.redirect "design" "Please enter a name and select a month." "error", st)
      else
        match month with
        | none => (.serverError, st)
        | some m =>
          (.redirect "my_projects" "Design saved successfully 🌿" "success",
            { st with db := { st.db with
                projects := st.db.projects ++
                  [⟨st.db.nextProjectId, uid, name, m, flower_image_path fs m, now⟩],
                nextProjectId := st.db.nextProjectId + 1 } })

/-- The comparison realised by `ORDER BY created_at DESC`. -/
def createdGe (a b : Project) : Prop := b.created_at ≤ a.created_at

instance : DecidableRel createdGe := fun a b => Nat.decLe b.created_at a.created_at

instance : IsTotal Project createdGe := ⟨fun a b => Nat.le_total b.created_at a.created_at⟩

instance : IsTrans Project createdGe := ⟨fun _ _ _ h h2 => Nat.le_trans h2 h⟩

/-- `SELECT * FROM projects WHERE user_id = ? ORDER BY created_at DESC`
(app.py line 211): the rows owned by `uid`, sorted newest first. -/
def list_for_user (db : DB) (uid : Nat) : List Project :=
  List.insertionSort createdGe (db.projects.filter (fun p => p.user_id == uid))

/-- GET `/projects` (app.py line 206), wrapped by `login_required`. -/
def my_projects : State → Resp × State :=
  login_required fun st =>
    match st.sess.lookup "user_id" with
    | none => (.serverError, st)
    | some uid => (.renderProjects "my_projects.html" (list_for_user st.db uid), st)

/-- `SELECT * FROM projects WHERE id = ? AND user_id = ?` followed by
`fetchone` (app.py lines 229 and 277). -/
def get_owned (db : DB) (pid uid : Nat) : Option Project :=
  db.projects.find? (fun p => p.id == pid && p.user_id == uid)

/-- GET `/edit/<project_id>` (app.py line 224), wrapped by `login_required`:
ownership lookup, then render the edit form with the record. -/
def edit_project_get (pid : Nat) : State → Resp × State :=
  login_required fun st =>
    match st.sess.lookup "user_id" with
    | none => (.serverError, st)
    | some uid =>
      match get_owned st.db pid uid with
      | none =>
        (.redirect "my_projects" "Project not found or access denied." "error", st)
      | some project => (.renderProject "edit_project.html" project, st)

/-- POST `/edit/<project_id>` (app.py line 224), wrapped by `login_required`:
ownership lookup, validation, then `UPDATE projects SET name_text, month,
flower_image WHERE id = ? AND user_id = ?`. -/
def edit_project_post (fs : String → Bool) (pid : Nat) (form : Form) :
    State → Resp × State :=
  login_required fun st =>
    match st.sess.lookup "user_id" with
    | none => (.serverError, st)
    | some uid =>
      match get_owned st.db pid uid with
      | none =>
        (.redirect "my_projects" "Project not found or access denied." "error", st)
      | some _ =>
        let name := pyStrip (formGet form "name" "")
        let month := formGet? form "month"
        if name == "" || falsy month then
          (.redirect "edit_project" "Name and month are required." "error", st)
        else
          match month with
          | none => (.serverError, st)
          | some m =>
            (.redirect "my_projects" "Project updated successfully 🌸" "success",
              { st with db := { st.db with
                  projects := st.db.projects.map (fun p =>
                    if p.id == pid && p.user_id == uid then
                      { p with name_text := name, month := m,
                               flower_image := flower_image_path fs m }
                    else p) } })

/-- POST `/delete/<project_id>` (app.py line 272), wrapped by
`login_required`: ownership lookup, then
`DELETE FROM projects WHERE id = ? AND user_id = ?`. -/
def delete_project (pid : Nat) : State → Resp × State :=
  login_required fun st =>
    match st.sess.lookup "user_id" with
    | none => (.serverError, st)
    | some uid =>
      match get_owned st.db pid uid with
      | none =>
        (.redirect "my_projects" "Project not found or access denied." "error", st)
      | some _ =>
        (.redirect "my_projects" "Project deleted successfully 🗑️" "success",
          { st with db := { st.db with
              projects := st.db.projects.filter
                (fun p => !(p.id == pid && p.user_id == uid)) } })

/-- The twelve calendar month labels of the data model. -/
def calendarMonths : List String :=
  ["January", "February", "March", "April", "May", "June", "July",
   "August", "September", "October", "November", "December"]

end NameSprouts

namespace NameSprouts

/-- Claim C2: the image-path derivation is a total function: for any month
label `m`, when the asset `flowers/<m>.png` exists under the static asset
directory it returns `static/flowers/<m>.png`, and otherwise it returns the
fixed default path `static/flowers/default.png`. -/
theorem C2_flower_image_total (fs : String → Bool) (m : String) :
    (fs ("flowers/" ++ m ++ ".png") = true →
      flower_image_path fs m = "static/" ++ ("flowers/" ++ m ++ ".png")) ∧
    (fs ("flowers/" ++ m ++ ".png") = false →
      flower_image_path fs m = "static/flowers/default.png") := by
  constructor <;> intro h <;> simp [flower_image_path, h]

/-- Witness for C2: with exactly the June asset present, month `"June"`
yields `static/flowers/June.png` and month `"Xyz"` yields the default. -/
theorem C2_flower_image_total_witness :
    flower_image_path (fun s => s == "flowers/June.png") "June" = "static/flowers/June.png" ∧
    flower_image_path (fun s => s == "flowers/June.png") "Xyz" = "static/flowers/default.png" := by
  constructor
  · rw [(C2_flower_image_total (fun s => s == "flowers/June.png") "June").1 (by decide)]
    decide
  · exact (C2_flower_image_total (fun s => s == "flowers/June.png") "Xyz").2 (by decide)

/-- Claim C7: every protected handler (design GET and POST, projects listing,
edit GET and POST, delete) answers a request carrying no valid session
binding with a redirect to the login page and leaves the state unchanged —
never serving protected content — and since logout clears the session, a
request to `/projects` right after logout is also redirected to login. -/
theorem C7_auth_guard (fs : String → Bool) (now : Nat) (form : Form)
    (pid : Nat) (st : State) (h : st.sess.lookup "user_id" = none) :
    design_get st = (.redirect "login" "Please log in to continue." "error", st) ∧
    design_post fs now form st =
      (.redirect "login" "Please log in to continue." "error", st) ∧
    my_projects st = (.redirect "login" "Please log in to continue." "error", st) ∧
    edit_project_get pid st =
      (.redirect "login" "Please log in to continue." "error", st) ∧
    edit_project_post fs pid form st =
      (.redirect "login" "Please log in to continue." "error", st) ∧
    delete_project pid st =
      (.redirect "login" "Please log in to continue." "error", st) ∧
    (∀ st0 : State,
      my_projects (logout st0).2 =
        (.redirect "login" "Please log in to continue." "error", (logout st0).2)) := by
  refine ⟨?_, ?_, ?_, ?_, ?_, ?_, ?_⟩ <;>
    simp [design_get, design_post, my_projects, edit_project_get, edit_project_post,
          delete_project, login_required, logout, h]

/-- Witness for C7: a concrete state with a stored project but an empty
session is redirected to login by the projects listing. -/
theorem C7_auth_guard_witness :
    my_projects ⟨⟨[], [⟨1, 1, "a", "May", "i", 0⟩], 1, 2⟩, []⟩ =
      (.redirect "login" "Please log in to continue." "error",
        ⟨⟨[], [⟨1, 1, "a", "May", "i", 0⟩], 1, 2⟩, []⟩) :=
  (C7_auth_guard (fun _ => false) 0 [] 1
    ⟨⟨[], [⟨1, 1, "a", "May", "i", 0⟩], 1, 2⟩, []⟩ rfl).2.2.1

/-- Claim C8: a successful login replaces the entire session content by the
single binding of `"user_id"` to the authenticated user's id: whatever the
session held before the login, nothing of it is carried over (session
regeneration on login). -/
theorem C8_session_regeneration (checkPw : String → String → Bool) (form : Form)
    (st : State) (u : UserRec) (pw : String)
    (hu : st.db.users.find?
      (fun v => v.username == pyStrip (formGet form "username" "")) = some u)
    (hpw : formGet? form "password" = some pw)
    (hok : checkPw u.hash pw = true) :
    (login checkPw form st).2.sess = [("user_id", u.id)] ∧
    (login checkPw form st).1 = .redirect "design" "Welcome back 🌸" "success" := by
  simp [login, hu, hpw, hok]

/-- Witness for C8: a login into a session still holding stale bindings
leaves exactly the fresh user binding. -/
theorem C8_session_regeneration_witness :
    (login (fun h p => h == "H" ++ p) [("username", "alice"), ("password", "pw")]
      ⟨⟨[⟨1, "alice", "a@x", "Hpw"⟩], [], 2, 1⟩,
        [("user_id", 9), ("stale", 3)]⟩).2.sess = [("user_id", 1)] :=
  (C8_session_regeneration (fun h p => h == "H" ++ p)
    [("username", "alice"), ("password", "pw")]
    ⟨⟨[⟨1, "alice", "a@x", "Hpw"⟩], [], 2, 1⟩, [("user_id", 9), ("stale", 3)]⟩
    ⟨1, "alice", "a@x", "Hpw"⟩ "pw" (by decide) (by decide) (by decide)).1

end NameSprouts

namespace NameSprouts

/-- Claim C1: for an authenticated user, each project operation (edit GET,
edit POST, delete POST) reaches a non-failure outcome only on a project that
exists and is owned by that user; when no such project exists — whether the
id is unused or the project belongs to someone else — all three answer with
the same undistinguished redirect flashing "Project not found or access
denied." and leave the state unchanged, and the edit form never renders a
project not owned by the authenticated user. -/
theorem C1_project_ops_ownership (fs : String → Bool) (st : State)
    (pid uid : Nat) (form : Form)
    (hs : st.sess.lookup "user_id" = some uid) :
    ((∀ p ∈ st.db.projects, ¬(p.id = pid ∧ p.user_id = uid)) →
      edit_project_get pid st =
        (.redirect "my_projects" "Project not found or access denied." "error", st) ∧
      edit_project_post fs pid form st =
        (.redirect "my_projects" "Project not found or access denied." "error", st) ∧
      delete_project pid st =
        (.redirect "my_projects" "Project not found or access denied." "error", st)) ∧
    (∀ p, edit_project_get pid st = (.renderProject "edit_project.html" p, st) →
      p ∈ st.db.projects ∧ p.id = pid ∧ p.user_id = uid) := by
  constructor
  · intro hnone
    have h0 : get_owned st.db pid uid = none := by
      refine List.find?_eq_none.mpr fun p hp => ?_
      simp only [Bool.and_eq_true, beq_iff_eq]
      exact fun hc => hnone p hp hc
    refine ⟨?_, ?_, ?_⟩ <;>
      simp [edit_project_get, edit_project_post, delete_project,
            login_required, hs, h0]
  · intro p hres
    cases hgo : get_owned st.db pid uid with
    | none =>
      simp only [edit_project_get, login_required, hs, hgo, Option.isNone_some,
        Bool.false_eq_true, if_false] at hres
      exact absurd hres (by simp)
    | some q =>
      simp only [edit_project_get, login_required, hs, hgo, Option.isNone_some,
        Bool.false_eq_true, if_false] at hres
      have hq := List.find?_some hgo
      have hmem := List.mem_of_find?_eq_some hgo
      simp only [Bool.and_eq_true, beq_iff_eq] at hq
      simp only [Prod.mk.injEq, Resp.renderProject.injEq, true_and, and_true] at hres
      exact hres ▸ ⟨hmem, hq.1, hq.2⟩

/-- Witness for C1: with user 1 logged in and project 7 owned by user 2, the
edit form answers the undistinguished not-found-or-forbidden redirect. -/
theorem C1_project_ops_ownership_witness :
    edit_project_get 7 ⟨⟨[], [⟨7, 2, "x", "May", "i", 0⟩], 1, 8⟩, [("user_id", 1)]⟩ =
      (.redirect "my_projects" "Project not found or access denied." "error",
        ⟨⟨[], [⟨7, 2, "x", "May", "i", 0⟩], 1, 8⟩, [("user_id", 1)]⟩) :=
  ((C1_project_ops_ownership (fun _ => false)
      ⟨⟨[], [⟨7, 2, "x", "May", "i", 0⟩], 1, 8⟩, [("user_id", 1)]⟩ 7 1 []
      (by decide)).1 (by decide)).1

/-- Claim C3 counterexample: with a known username and no password field in
the form, the login handler passes Python `None` to `check_password_hash`,
which raises: the request ends in a 500, not in the uniform
InvalidCredentials redirect the claim requires for every failing attempt. -/
theorem C3_login_counterexample :
    login (fun h p => h == "H" ++ p) [("username", "alice")]
        ⟨⟨[⟨1, "alice", "a@x", "Hpw"⟩], [], 2, 1⟩, []⟩ =
      (.serverError, ⟨⟨[⟨1, "alice", "a@x", "Hpw"⟩], [], 2, 1⟩, []⟩) ∧
    Resp.serverError ≠
      .redirect "login" "Invalid username or password." "error" := by
  decide

/-- Claim C3 amended: POST `/login` reaches the success outcome, bound to the
matching user, exactly when a user with the submitted username exists, the
password field is present, and the stored hash matches it; unknown username,
and known username with a wrong present password, both yield the identical
InvalidCredentials redirect (no distinction surfaced); a known username with
an absent password field instead ends in an uncaught error (500). -/
theorem C3_login_verify (checkPw : String → String → Bool) (form : Form)
    (st : State) :
    ((st.db.users.find?
        (fun v => v.username == pyStrip (formGet form "username" "")) = none) →
      login checkPw form st =
        (.redirect "login" "Invalid username or password." "error", st)) ∧
    (∀ u, st.db.users.find?
        (fun v => v.username == pyStrip (formGet form "username" "")) = some u →
      (formGet? form "password" = none →
        login checkPw form st = (.serverError, st)) ∧
      (∀ pw, formGet? form "password" = some pw → checkPw u.hash pw = false →
        login checkPw form st =
          (.redirect "login" "Invalid username or password." "error", st)) ∧
      (∀ pw, formGet? form "password" = some pw → checkPw u.hash pw = true →
        login checkPw form st =
          (.redirect "design" "Welcome back 🌸" "success",
            { st with sess := [("user_id", u.id)] }))) := by
  refine ⟨fun h => by simp [login, h], fun u hu =>
    ⟨fun hp => by simp [login, hu, hp],
     fun pw hp hc => by simp [login, hu, hp, hc],
     fun pw hp hc => by simp [login, hu, hp, hc]⟩⟩

/-- Witness for C3's amended theorem: a concrete successful login through the
matching-user branch. -/
theorem C3_login_verify_witness :
    login (fun h p => h == "H" ++ p) [("username", "alice"), ("password", "pw")]
        ⟨⟨[⟨1, "alice", "a@x", "Hpw"⟩], [], 2, 1⟩, []⟩ =
      (.redirect "design" "Welcome back 🌸" "success",
        ⟨⟨[⟨1, "alice", "a@x", "Hpw"⟩], [], 2, 1⟩, [("user_id", 1)]⟩) :=
  ((C3_login_verify (fun h p => h == "H" ++ p)
      [("username", "alice"), ("password", "pw")]
      ⟨⟨[⟨1, "alice", "a@x", "Hpw"⟩], [], 2, 1⟩, []⟩).2
      ⟨1, "alice", "a@x", "Hpw"⟩ (by decide)).2.2 "pw" (by decide) (by decide)

end NameSprouts

namespace NameSprouts

/-- Claim C4: POST `/design` with a missing or empty-after-strip name, or a
missing month, is rejected with a validation redirect and leaves the state —
in particular the projects store — unchanged; with a non-empty name and a
month value present, exactly one new record is appended, carrying the
current timestamp and the image path computed from the month. -/
theorem C4_design_validation (fs : String → Bool) (now : Nat) (form : Form)
    (st : State) (uid : Nat) (hs : st.sess.lookup "user_id" = some uid) :
    ((pyStrip (formGet form "name" "") = "" ∨ formGet? form "month" = none) →
      design_post fs now form st =
        (.redirect "design" "Please enter a name and select a month." "error", st)) ∧
    (∀ m, formGet? form "month" = some m → m ≠ "" →
      pyStrip (formGet form "name" "") ≠ "" →
      design_post fs now form st =
        (.redirect "my_projects" "Design saved successfully 🌿" "success",
          { st with db := { st.db with
              projects := st.db.projects ++
                [⟨st.db.nextProjectId, uid, pyStrip (formGet form "name" ""), m,
                  flower_image_path fs m, now⟩],
              nextProjectId := st.db.nextProjectId + 1 } })) := by
  constructor
  · rintro (hn | hm)
    · simp [design_post, login_required, hs, hn]
    · simp [design_post, login_required, hs, hm, falsy]
  · intro m hm hm0 hname
    simp [design_post, login_required, hs, hm, falsy, hm0, hname]

/-- Witness for C4: a whitespace-only name is rejected with the store
unchanged; a valid submission appends exactly the one new record. -/
theorem C4_design_validation_witness :
    design_post (fun _ => false) 3 [("name", " "), ("month", "May")]
        ⟨⟨[], [], 1, 1⟩, [("user_id", 1)]⟩ =
      (.redirect "design" "Please enter a name and select a month." "error",
        ⟨⟨[], [], 1, 1⟩, [("user_id", 1)]⟩) ∧
    design_post (fun _ => false) 3 [("name", "bud"), ("month", "May")]
        ⟨⟨[], [], 1, 1⟩, [("user_id", 1)]⟩ =
      (.redirect "my_projects" "Design saved successfully 🌿" "success",
        ⟨⟨[], [⟨1, 1, "bud", "May", "static/flowers/default.png", 3⟩], 1, 2⟩,
          [("user_id", 1)]⟩) := by
  constructor
  · exact (C4_design_validation (fun _ => false) 3 [("name", " "), ("month", "May")]
      ⟨⟨[], [], 1, 1⟩, [("user_id", 1)]⟩ 1 (by decide)).1 (Or.inl (by decide))
  · have h := (C4_design_validation (fun _ => false) 3
      [("name", "bud"), ("month", "May")]
      ⟨⟨[], [], 1, 1⟩, [("user_id", 1)]⟩ 1 (by decide)).2 "May"
      (by decide) (by decide) (by decide)
    rw [h]
    decide

/-- Claim C5: registration fails with the duplicate-identity outcome — and
inserts no user row — whenever the submitted username equals an existing
user's username or the submitted email equals an existing user's email; a
successful registration appends exactly one row whose stored credential is
the hash of the password, so whenever the hash function is one-way at this
password (output differs from input) no stored hash equals the plaintext
unless it already did before the request. -/
theorem C5_register_duplicate_and_hash (hashFn : String → String) (form : Form)
    (st : State) (pw : String)
    (hpw : formGet? form "password" = some pw) (hpw0 : pw ≠ "")
    (hu0 : pyStrip (formGet form "username" "") ≠ "")
    (he0 : pyStrip (formGet form "email" "") ≠ "") :
    ((∃ u ∈ st.db.users, u.username = pyStrip (formGet form "username" "") ∨
        u.email = pyStrip (formGet form "email" "")) →
      register hashFn form st =
        (.redirect "register" "Username or email already exists." "error", st)) ∧
    ((∀ u ∈ st.db.users, u.username ≠ pyStrip (formGet form "username" "") ∧
        u.email ≠ pyStrip (formGet form "email" "")) →
      register hashFn form st =
        (.redirect "login" "Account created successfully. Please log in." "success",
          { st with db := { st.db with
              users := st.db.users ++
                [⟨st.db.nextUserId, pyStrip (formGet form "username" ""),
                  pyStrip (formGet form "email" ""), hashFn pw⟩],
              nextUserId := st.db.nextUserId + 1 } }) ∧
      (hashFn pw ≠ pw →
        ∀ u ∈ (register hashFn form st).2.db.users,
          u.hash = pw → u ∈ st.db.users)) := by
  constructor
  · rintro ⟨u, hu, hdup⟩
    have hany : st.db.users.any (fun v =>
        v.username == pyStrip (formGet form "username" "") ||
        v.email == pyStrip (formGet form "email" "")) = true := by
      refine List.any_eq_true.mpr ⟨u, hu, ?_⟩
      cases hdup with
      | inl h => simp [h]
      | inr h => simp [h]
    simp [register, hpw, hu0, he0, hpw0, falsy, hany]
  · intro hnone
    have hany : st.db.users.any (fun v =>
        v.username == pyStrip (formGet form "username" "") ||
        v.email == pyStrip (formGet form "email" "")) = false := by
      refine List.any_eq_false.mpr fun u hu => ?_
      have h := hnone u hu
      simp [h.1, h.2]
    have hreg : register hashFn form st =
        (.redirect "login" "Account created successfully. Please log in." "success",
          { st with db := { st.db with
              users := st.db.users ++
                [⟨st.db.nextUserId, pyStrip (formGet form "username" ""),
                  pyStrip (formGet form "email" ""), hashFn pw⟩],
              nextUserId := st.db.nextUserId + 1 } }) := by
      simp [register, hpw, hu0, he0, hpw0, falsy, hany]
    refine ⟨hreg, fun hone u hu hhash => ?_⟩
    rw [hreg] at hu
    rcases List.mem_append.mp hu with h | h
    · exact h
    · simp only [List.mem_singleton] at h
      subst h
      exact absurd hhash hone

/-- Witness for C5: registering a second "bob" fails with the duplicate
outcome and no insertion; registering a fresh "bob" stores the hashed
password, never the plaintext. -/
theorem C5_register_duplicate_and_hash_witness :
    register (fun p => "H" ++ p)
        [("username", "bob"), ("email", "b@x"), ("password", "pw")]
        ⟨⟨[⟨1, "bob", "a@x", "h"⟩], [], 2, 1⟩, []⟩ =
      (.redirect "register" "Username or email already exists." "error",
        ⟨⟨[⟨1, "bob", "a@x", "h"⟩], [], 2, 1⟩, []⟩) ∧
    register (fun p => "H" ++ p)
        [("username", "bob"), ("email", "b@x"), ("password", "pw")]
        ⟨⟨[⟨1, "al", "a@y", "h"⟩], [], 2, 1⟩, []⟩ =
      (.redirect "login" "Account created successfully. Please log in." "success",
        ⟨⟨[⟨1, "al", "a@y", "h"⟩, ⟨2, "bob", "b@x", "Hpw"⟩], [], 3, 1⟩, []⟩) := by
  constructor
  · exact (C5_register_duplicate_and_hash (fun p => "H" ++ p)
      [("username", "bob"), ("email", "b@x"), ("password", "pw")]
      ⟨⟨[⟨1, "bob", "a@x", "h"⟩], [], 2, 1⟩, []⟩ "pw"
      (by decide) (by decide) (by decide) (by decide)).1
      ⟨⟨1, "bob", "a@x", "h"⟩, by decide, Or.inl (by decide)⟩
  · have h := ((C5_register_duplicate_and_hash (fun p => "H" ++ p)
      [("username", "bob"), ("email", "b@x"), ("password", "pw")]
      ⟨⟨[⟨1, "al", "a@y", "h"⟩], [], 2, 1⟩, []⟩ "pw"
      (by decide) (by decide) (by decide) (by decide)).2 (by decide)).1
    rw [h]
    decide

/-- Claim C6: for an authenticated user, GET `/projects` renders exactly the
projects whose owning `user_id` is that user's id — a permutation of the
matching rows, none of any other user — ordered by creation time descending
(newest first). -/
theorem C6_projects_listing (st : State) (uid : Nat)
    (hs : st.sess.lookup "user_id" = some uid) :
    my_projects st =
      (.renderProjects "my_projects.html" (list_for_user st.db uid), st) ∧
    (list_for_user st.db uid).Perm
      (st.db.projects.filter (fun p => p.user_id == uid)) ∧
    List.Pairwise (fun a b => b.created_at ≤ a.created_at)
      (list_for_user st.db uid) ∧
    (∀ p ∈ list_for_user st.db uid, p.user_id = uid) := by
  refine ⟨by simp [my_projects, login_required, hs], ?_, ?_, ?_⟩
  · exact List.perm_insertionSort createdGe _
  · exact List.sorted_insertionSort createdGe _
  · intro p hp
    have hmem := (List.perm_insertionSort createdGe
      (st.db.projects.filter (fun q => q.user_id == uid))).mem_iff.mp hp
    have hf := List.mem_filter.mp hmem
    simpa using hf.2

/-- Witness for C6: three designs of user 1 created at times 3, 7, 5 come
back newest-created-first, with user 2's record absent. -/
theorem C6_projects_listing_witness :
    my_projects ⟨⟨[], [⟨1, 1, "a", "May", "i", 3⟩, ⟨2, 1, "b", "June", "i", 7⟩,
        ⟨3, 2, "c", "July", "i", 9⟩, ⟨4, 1, "d", "July", "i", 5⟩], 1, 5⟩,
      [("user_id", 1)]⟩ =
      (.renderProjects "my_projects.html"
        [⟨2, 1, "b", "June", "i", 7⟩, ⟨4, 1, "d", "July", "i", 5⟩,
         ⟨1, 1, "a", "May", "i", 3⟩],
        ⟨⟨[], [⟨1, 1, "a", "May", "i", 3⟩, ⟨2, 1, "b", "June", "i", 7⟩,
          ⟨3, 2, "c", "July", "i", 9⟩, ⟨4, 1, "d", "July", "i", 5⟩], 1, 5⟩,
        [("user_id", 1)]⟩) := by
  have h := (C6_projects_listing ⟨⟨[], [⟨1, 1, "a", "May", "i", 3⟩,
      ⟨2, 1, "b", "June", "i", 7⟩, ⟨3, 2, "c", "July", "i", 9⟩,
      ⟨4, 1, "d", "July", "i", 5⟩], 1, 5⟩, [("user_id", 1)]⟩ 1 (by decide)).1
  rw [h]
  decide

end NameSprouts

namespace NameSprouts

/-- Claim C9 counterexample: the design handler stores the submitted month
label verbatim. Creating a project with month "Xyz" succeeds and stores a
record whose month is "Xyz", which is not one of the twelve calendar values
— the handlers do not restrict the month field to that set. -/
theorem C9_month_counterexample :
    ((design_post (fun _ => false) 5 [("name", "x"), ("month", "Xyz")]
        ⟨⟨[⟨1, "alice", "a@x", "h"⟩], [], 2, 1⟩, [("user_id", 1)]⟩).2.db.projects.map
      Project.month = ["Xyz"]) ∧ "Xyz" ∉ calendarMonths := by
  decide

/-- Claim C9 amended: create and update store exactly the month label
submitted in the form, with no server-side restriction to the twelve
calendar values: after a POST to `/design` or `/edit/<pid>` carrying month
`m`, every stored project either was already in the store or carries month
`m` — month validity relies solely on the form's select options. -/
theorem C9_month_stored_as_submitted (fs : String → Bool) (now : Nat)
    (form : Form) (st : State) (pid : Nat) (m : String)
    (hm : formGet? form "month" = some m) :
    (∀ p ∈ (design_post fs now form st).2.db.projects,
      p ∈ st.db.projects ∨ p.month = m) ∧
    (∀ p ∈ (edit_project_post fs pid form st).2.db.projects,
      p ∈ st.db.projects ∨ p.month = m) := by
  constructor
  · intro p hp
    simp only [design_post, login_required] at hp
    by_cases hsess : (st.sess.lookup "user_id").isNone = true
    · rw [if_pos hsess] at hp
      exact Or.inl hp
    · rw [if_neg hsess] at hp
      cases hl : st.sess.lookup "user_id" with
      | none => simp [hl] at hsess
      | some uid =>
        simp only [hl] at hp
        by_cases hval : (pyStrip (formGet form "name" "") == "" ||
            falsy (formGet? form "month")) = true
        · rw [if_pos hval] at hp
          exact Or.inl hp
        · rw [if_neg hval] at hp
          simp only [hm] at hp
          rcases List.mem_append.mp hp with h | h
          · exact Or.inl h
          · simp only [List.mem_singleton] at h
            subst h
            exact Or.inr rfl
  · intro p hp
    simp only [edit_project_post, login_required] at hp
    by_cases hsess : (st.sess.lookup "user_id").isNone = true
    · rw [if_pos hsess] at hp
      exact Or.inl hp
    · rw [if_neg hsess] at hp
      cases hl : st.sess.lookup "user_id" with
      | none => simp [hl] at hsess
      | some uid =>
        simp only [hl] at hp
        cases hgo : get_owned st.db pid uid with
        | none =>
          simp only [hgo] at hp
          exact Or.inl hp
        | some q =>
          simp only [hgo] at hp
          by_cases hval : (pyStrip (formGet form "name" "") == "" ||
              falsy (formGet? form "month")) = true
          · rw [if_pos hval] at hp
            exact Or.inl hp
          · rw [if_neg hval] at hp
            simp only [hm] at hp
            rcases List.mem_map.mp hp with ⟨q2, hq2, hup⟩
            by_cases hc : (q2.id == pid && q2.user_id == uid) = true
            · rw [if_pos hc] at hup
              refine Or.inr ?_
              rw [← hup]
            · rw [if_neg hc] at hup
              refine Or.inl ?_
              rw [← hup]
              exact hq2

/-- Witness for C9's amended theorem: the record stored for month "Xyz" is
new and carries exactly the submitted label. -/
theorem C9_month_stored_as_submitted_witness :
    (⟨1, 1, "x", "Xyz", "static/flowers/default.png", 5⟩ : Project) ∈
        ([] : List Project) ∨
    (⟨1, 1, "x", "Xyz", "static/flowers/default.png", 5⟩ : Project).month = "Xyz" :=
  (C9_month_stored_as_submitted (fun _ => false) 5
    [("name", "x"), ("month", "Xyz")] ⟨⟨[], [], 1, 1⟩, [("user_id", 1)]⟩ 0 "Xyz"
    (by decide)).1 ⟨1, 1, "x", "Xyz", "static/flowers/default.png", 5⟩ (by decide)

/-- Claim C10: a successful authenticated edit rewrites the store by a map
that touches only the record with the edited id owned by the session user,
and on that record only the name, the month and the derived image path: the
record's id, owner and creation timestamp — and every other project record,
the users table, the id counters and the session — are left unchanged. -/
theorem C10_edit_frame (fs : String → Bool) (pid : Nat) (form : Form)
    (st : State) (uid : Nat) (m : String)
    (hs : st.sess.lookup "user_id" = some uid)
    (hown : get_owned st.db pid uid ≠ none)
    (hm : formGet? form "month" = some m) (hm0 : m ≠ "")
    (hname : pyStrip (formGet form "name" "") ≠ "") :
    (edit_project_post fs pid form st).1 =
      .redirect "my_projects" "Project updated successfully 🌸" "success" ∧
    (edit_project_post fs pid form st).2.sess = st.sess ∧
    (edit_project_post fs pid form st).2.db.users = st.db.users ∧
    (edit_project_post fs pid form st).2.db.nextUserId = st.db.nextUserId ∧
    (edit_project_post fs pid form st).2.db.nextProjectId = st.db.nextProjectId ∧
    (edit_project_post fs pid form st).2.db.projects =
      st.db.projects.map (fun q =>
        if q.id == pid && q.user_id == uid then
          { q with name_text := pyStrip (formGet form "name" ""), month := m,
                   flower_image := flower_image_path fs m }
        else q) ∧
    (∀ q ∈ st.db.projects, ¬(q.id = pid ∧ q.user_id = uid) →
      q ∈ (edit_project_post fs pid form st).2.db.projects) ∧
    (∀ q : Project,
      (if q.id == pid && q.user_id == uid then
        ({ q with name_text := pyStrip (formGet form "name" ""), month := m,
                  flower_image := flower_image_path fs m } : Project)
      else q).id = q.id ∧
      (if q.id == pid && q.user_id == uid then
        ({ q with name_text := pyStrip (formGet form "name" ""), month := m,
                  flower_image := flower_image_path fs m } : Project)
      else q).user_id = q.user_id ∧
      (if q.id == pid && q.user_id == uid then
        ({ q with name_text := pyStrip (formGet form "name" ""), month := m,
                  flower_image := flower_image_path fs m } : Project)
      else q).created_at = q.created_at) := by
  cases hgo : get_owned st.db pid uid with
  | none => exact absurd hgo hown
  | some q0 =>
    have hmap : (edit_project_post fs pid form st).2.db.projects =
        st.db.projects.map (fun q =>
          if q.id == pid && q.user_id == uid then
            { q with name_text := pyStrip (formGet form "name" ""), month := m,
                     flower_image := flower_image_path fs m }
          else q) := by
      simp [edit_project_post, login_required, hs, hgo, hm, falsy, hname, hm0]
    refine ⟨?_, ?_, ?_, ?_, ?_, hmap, ?_, ?_⟩
    · simp [edit_project_post, login_required, hs, hgo, hm, falsy, hname, hm0]
    · simp [edit_project_post, login_required, hs, hgo, hm, falsy, hname, hm0]
    · simp [edit_project_post, login_required, hs, hgo, hm, falsy, hname, hm0]
    · simp [edit_project_post, login_required, hs, hgo, hm, falsy, hname, hm0]
    · simp [edit_project_post, login_required, hs, hgo, hm, falsy, hname, hm0]
    · intro q hq hnot
      rw [hmap]
      refine List.mem_map.mpr ⟨q, hq, ?_⟩
      have hb : ¬((q.id == pid && q.user_id == uid) = true) := by
        simp only [Bool.and_eq_true, beq_iff_eq]
        exact hnot
      rw [if_neg hb]
    · intro q
      by_cases hb : (q.id == pid && q.user_id == uid) = true
      · rw [if_pos hb]
        exact ⟨rfl, rfl, rfl⟩
      · rw [if_neg hb]
        exact ⟨rfl, rfl, rfl⟩

/-- Witness for C10: editing project 7 of user 1 changes only its name,
month and image path; its id, owner and timestamp, and user 2's record, are
untouched. -/
theorem C10_edit_frame_witness :
    (edit_project_post (fun _ => false) 7 [("name", "new"), ("month", "June")]
        ⟨⟨[], [⟨7, 1, "old", "May", "i", 42⟩, ⟨8, 2, "z", "May", "i", 43⟩], 1, 9⟩,
          [("user_id", 1)]⟩).2.db.projects =
      [⟨7, 1, "new", "June", "static/flowers/default.png", 42⟩,
       ⟨8, 2, "z", "May", "i", 43⟩] := by
  have h := (C10_edit_frame (fun _ => false) 7 [("name", "new"), ("month", "June")]
      ⟨⟨[], [⟨7, 1, "old", "May", "i", 42⟩, ⟨8, 2, "z", "May", "i", 43⟩], 1, 9⟩,
        [("user_id", 1)]⟩ 1 "June" (by decide) (by decide) (by decide) (by decide)
      (by decide)).2.2.2.2.2.1
  rw [h]
  decide

end NameSprouts
